import Mathlib

/-!
Verification development for the plugin-based integration batch runner.

The definitions below are a shallow embedding of the Python sources:
`integration_framework/support_manager.py` (backoff notifier),
`integration_framework/batch.py` (loader/validator, batch execution,
criteria filter with fingerprint) and `integration_framework/telemetry.py`
(metrics store report).  Clock times and durations are modelled as
rationals (seconds), machine dictionaries as association lists, and
Python exceptions as `Except String` values.
-/

namespace IntegrationFramework

/-- Association-list lookup, modelling Python `dict.get` for string keys. -/
def alookup {α : Type} : List (String × α) → String → Option α
  | [], _ => none
  | p :: rest, key => if p.1 == key then some p.2 else alookup rest key

/-- Association-list update, modelling Python `dict[key] = value`
(replace the existing binding, else append a new one). -/
def aset {α : Type} : List (String × α) → String → α → List (String × α)
  | [], key, v => [(key, v)]
  | p :: rest, key, v =>
    if p.1 == key then (key, v) :: rest else p :: aset rest key v

theorem alookup_aset_self {α : Type} (l : List (String × α)) (key : String) (v : α) :
    alookup (aset l key v) key = some v := by
  induction l with
  | nil => simp [aset, alookup]
  | cons p rest ih =>
    by_cases h : p.1 == key
    · simp [aset, h, alookup]
    · simp [aset, h, alookup, ih]

theorem alookup_aset_other {α : Type} (l : List (String × α)) (key key' : String) (v : α)
    (h : (key == key') = false) : alookup (aset l key v) key' = alookup l key' := by
  induction l with
  | nil => simp [aset, alookup, h]
  | cons p rest ih =>
    by_cases hp : p.1 == key
    · have : (p.1 == key') = false := by
        have hpk : p.1 = key := by simpa using hp
        simpa [hpk] using h
      simp [aset, hp, alookup, h, this]
    · simp only [aset, hp, Bool.false_eq_true, if_false, alookup]
      by_cases hq : p.1 == key' <;> simp [hq, ih]

/-! ## Backoff notifier (`support_manager.py`)

`SupportManager.backoff_state` maps a channel key to
`(last_emit_time, retry_count)`. -/

/-- In-memory backoff state of a `SupportManager`. -/
abbrev BackoffState := List (String × (ℚ × Nat))

/-- `SupportManager.initial_delay`. -/
def initialDelay : ℚ := 1
/-- `SupportManager.multiplier`. -/
def multiplier : ℚ := 2
/-- `SupportManager.max_delay`. -/
def maxDelay : ℚ := 60

/-- `SupportManager._should_log`: look up `(last_time, retry_count)`
(defaulting to `(0.0, 0)`), compute the suppression window
`min(initial_delay * multiplier ** retry_count, max_delay)`; inside the
window, store `(last_time, 0)` back and refuse, else allow with the state
untouched.  Returns `(should_log, new backoff_state)`. -/
def shouldLog (st : BackoffState) (key : String) (t : ℚ) : Bool × BackoffState :=
  let lastRetry := (alookup st key).getD (0, 0)
  let delay := min (initialDelay * multiplier ^ lastRetry.2) maxDelay
  if t < lastRetry.1 + delay then (false, aset st key (lastRetry.1, 0))
  else (true, st)

/-- Result of one decorated `log_with_backoff` call: the returned pair
`(emitted, observed time)`, the backoff state afterwards, and the log
messages actually written. -/
structure EmitResult where
  emitted : Bool
  observedTime : ℚ
  state : BackoffState
  logOutput : List String
  deriving DecidableEq, Repr

/-- `SupportManager.log_with_backoff` observed at a single clock time `t`.
The body calls `_should_log`; on emission it writes the message and the
`backoff.on_predicate` decorator's `on_success` hook stores
`(current_time, 0)` for the key.  When suppressed, the decorator retries
the body, but at one observed clock time every retry repeats the identical
idempotent transition, so the decorated call collapses to a single
attempt returning `(False, t)` with no message written — the semantics the
repository's `test_log_with_backoff` pins down with a frozen `time.time`. -/
def logWithBackoff (st : BackoffState) (key msg : String) (t : ℚ) : EmitResult :=
  match shouldLog st key t with
  | (true, st1) => ⟨true, t, aset st1 key (t, 0), [msg]⟩
  | (false, st1) => ⟨false, t, st1, []⟩

/-- The channel suffix `integration_name or 'default'`: Python `or`
treats both `None` and the empty string as falsy. -/
def notifyChannel : Option String → String
  | none => "default"
  | some s => if s == "" then "default" else s

/-- `SupportManager.notify`: channel key `notify_<integration or default>`,
delegating to `log_with_backoff`. -/
def notify (st : BackoffState) (msg : String) (integrationName : Option String)
    (t : ℚ) : EmitResult :=
  logWithBackoff st ("notify_" ++ notifyChannel integrationName) msg t

/-! ## Plugin model and loader/validator (`batch.py`)

A plugin directory's observable content: its `config.yaml`, the
implementation class `load_integration` resolves (with the behaviour of
its constructor and three stages), and the metadata fields the filter
engine consults.  Exceptions are `Except String` errors carrying
`str(e)`. -/

/-- Payload passed between the fetch/transform/deliver stages. -/
abbrev Data := String

/-- The resolved implementation class of one plugin: construction and the
three contract stages `fetch_data` / `postprocess_data` /
`deliver_results`, each able to raise. -/
structure IntegrationImpl where
  construct : Except String Unit
  fetchData : Except String Data
  postprocessData : Data → Except String Data
  deliverResults : Data → Except String Unit

/-- A parsed `config.yaml` document as far as the engine reads it: the
optional `enabled` key. -/
structure ConfigDoc where
  enabled : Option Bool

/-- Everything `batch.py` observes about one plugin directory.
`configYaml = none` models a missing or malformed `config.yaml`
(`load_config` returns the empty mapping); `impl = none` models
`load_integration` finding no `Integration` subclass.  `lastUpdated` is
the string `get_last_updated` computes (telemetry / metadata /
directory-mtime fallback, or the sentinel `"N/A"`); `runDuration` is the
elapsed wall clock observed for a run of this plugin. -/
structure PluginSrc where
  configYaml : Option ConfigDoc
  impl : Option IntegrationImpl
  runDuration : ℚ
  tags : List String
  businessContact : Option String
  technicalContact : Option String
  description : Option String
  lastUpdated : String

/-- A plugin name that is not on disk: missing config (hence disabled),
no implementation, empty metadata. -/
def absentPlugin : PluginSrc :=
  ⟨none, none, 0, [], none, none, none, "N/A"⟩

/-- `config.get("enabled", False)` after `load_config`: missing file or
missing key defaults to disabled. -/
def enabledOf (p : PluginSrc) : Bool :=
  match p.configYaml with
  | none => false
  | some d => d.enabled.getD false

/-- One entry of the validation cache JSON.  `timestamp` is the parsed
ISO timestamp; `none` models an entry whose timestamp string fails
`datetime.fromisoformat` or whose field is missing (the `ValueError` /
`KeyError` branch). -/
structure CEntry where
  valid : Bool
  timestamp : Option ℚ
  deriving DecidableEq, Repr

/-- The `integrations` mapping of `validation_cache.json`. -/
abbrev Cache := List (String × CEntry)

/-- `BatchRunner.cache_ttl`, `timedelta(hours=24)`, in seconds. -/
def cacheTTL : ℚ := 86400

/-- Side effects performed by one `validate_integration` call: config
reads, `load_integration` resolutions, constructor invocations, and
`save_validation_cache` writes. -/
structure VEffects where
  configReads : Nat
  implLoads : Nat
  constructs : Nat
  cacheWrites : Nat
  deriving DecidableEq, Repr

/-- The cache-consult step of `validate_integration`: a verdict is
returned iff the entry exists, its timestamp parses, and
`now - cache_time < cache_ttl`. -/
def freshVerdict (cache : Cache) (name : String) (now : ℚ) : Option Bool :=
  match alookup cache name with
  | none => none
  | some e =>
    match e.timestamp with
    | none => none
    | some t => if now - t < cacheTTL then some e.valid else none

/-- `BatchRunner.validate_integration`: answer from a fresh cache entry,
else recompute (disabled ⇒ trivially valid; otherwise resolve and
construct the implementation) and write the verdict back with a fresh
timestamp.  Returns `(verdict, cache file afterwards, effects)`. -/
def validateIntegration (env : String → PluginSrc) (cache : Cache) (name : String)
    (now : ℚ) : Bool × Cache × VEffects :=
  match freshVerdict cache name now with
  | some v => (v, cache, ⟨0, 0, 0, 0⟩)
  | none =>
    let p := env name
    if enabledOf p = false then
      (true, aset cache name ⟨true, some now⟩, ⟨1, 0, 0, 1⟩)
    else
      match p.impl with
      | none => (false, aset cache name ⟨false, some now⟩, ⟨1, 1, 0, 1⟩)
      | some i =>
        match i.construct with
        | .ok _ => (true, aset cache name ⟨true, some now⟩, ⟨1, 1, 1, 1⟩)
        | .error _ => (false, aset cache name ⟨false, some now⟩, ⟨1, 1, 1, 1⟩)

/-! ## Batch execution (`batch.py`) -/

/-- One row appended to the telemetry store by `TelemetryManager.log_run`
during a batch run (the `timestamp` column, filled with the wall clock at
insert time, is tracked separately in the reporting model below). -/
structure RunRow where
  integrationName : String
  status : String
  duration : ℚ
  error : Option String
  deriving DecidableEq, Repr

/-- Observable effects of running plugins: telemetry rows, messages passed
to `support.notify` (named by the completed integration; the formatted
`Completed <name> in <t>s` text is wall-clock dependent and elided), and
`logger` messages. -/
structure RunEffects where
  telemetry : List RunRow
  notifications : List String
  logs : List String
  deriving DecidableEq, Repr

/-- The guarded body of `run_integration`: construct, fetch, transform,
deliver; the first exception aborts the chain. -/
def runStages (i : IntegrationImpl) : Except String Unit := do
  let _ ← i.construct
  let d ← i.fetchData
  let p ← i.postprocessData d
  i.deliverResults p

/-- `BatchRunner.run_integration`: a disabled plugin is skipped with an
info log; an unresolvable implementation is skipped; otherwise the staged
body runs inside `try/except Exception` — success records a success row
and notifies, any exception records a failed row carrying `str(e)` and an
error log.  The function is total: no exception escapes the run. -/
def runIntegration (env : String → PluginSrc) (name : String) : RunEffects :=
  let p := env name
  if enabledOf p = false then
    ⟨[], [], ["Integration " ++ name ++ " is disabled"]⟩
  else
    match p.impl with
    | none => ⟨[], [], []⟩
    | some i =>
      match runStages i with
      | .ok _ => ⟨[⟨name, "success", p.runDuration, none⟩], [name], []⟩
      | .error m =>
        ⟨[⟨name, "failed", p.runDuration, some m⟩], [],
          ["Integration " ++ name ++ " failed: " ++ m]⟩

/-- Concatenate the effects of two runs. -/
def RunEffects.append (a b : RunEffects) : RunEffects :=
  ⟨a.telemetry ++ b.telemetry, a.notifications ++ b.notifications, a.logs ++ b.logs⟩

/-- The two single-interpreter strategies of `run_filtered` / `run_all`.
`sequential` is the plain loop; `cooperative` is
`asyncio.gather(*tasks, return_exceptions=True)` over
`run_integration_async` tasks — since those coroutines contain no awaits
and each already swallows its plugin's exceptions, the tasks settle in
dispatch order with the identical effects.  The `multiprocessing` pool
(fresh managers per OS worker) is outside this single-process model. -/
inductive ExecMode where
  | sequential
  | cooperative
  deriving DecidableEq, Repr

/-- The dispatch loop of `run_filtered` over the selected names. -/
def runBatch (env : String → PluginSrc) (mode : ExecMode) (names : List String) :
    RunEffects :=
  match mode with
  | .sequential => names.foldl (fun acc n => acc.append (runIntegration env n)) ⟨[], [], []⟩
  | .cooperative => names.foldl (fun acc n => acc.append (runIntegration env n)) ⟨[], [], []⟩

theorem runBatch_telemetry (env : String → PluginSrc) (mode : ExecMode)
    (names : List String) :
    (runBatch env mode names).telemetry
      = names.flatMap (fun n => (runIntegration env n).telemetry) := by
  have key : ∀ (l : List String) (acc : RunEffects),
      (l.foldl (fun acc n => acc.append (runIntegration env n)) acc).telemetry
        = acc.telemetry ++ l.flatMap (fun n => (runIntegration env n).telemetry) := by
    intro l
    induction l with
    | nil => intro acc; simp
    | cons n rest ih =>
      intro acc
      rw [List.foldl_cons, ih, List.flatMap_cons]
      simp [RunEffects.append, List.append_assoc]
  cases mode <;> simpa using key names ⟨[], [], []⟩

theorem runBatch_logs (env : String → PluginSrc) (mode : ExecMode)
    (names : List String) :
    (runBatch env mode names).logs
      = names.flatMap (fun n => (runIntegration env n).logs) := by
  have key : ∀ (l : List String) (acc : RunEffects),
      (l.foldl (fun acc n => acc.append (runIntegration env n)) acc).logs
        = acc.logs ++ l.flatMap (fun n => (runIntegration env n).logs) := by
    intro l
    induction l with
    | nil => intro acc; simp
    | cons n rest ih =>
      intro acc
      rw [List.foldl_cons, ih, List.flatMap_cons]
      simp [RunEffects.append, List.append_assoc]
  cases mode <;> simpa using key names ⟨[], [], []⟩

/-! ## Filter engine (`batch.py`, `filter_integrations`) -/

/-- A parsed naive `datetime` value, microseconds included.  Python
compares `datetime` objects componentwise, which the strictly monotone
`key` below reproduces (fields stay inside their calendar ranges, see
`parseIso`). -/
structure PyDateTime where
  year : Nat
  month : Nat
  day : Nat
  hour : Nat
  minute : Nat
  second : Nat
  microsecond : Nat
  deriving DecidableEq, Repr

/-- Order-embedding of an in-range `PyDateTime` into `Nat`. -/
def PyDateTime.key (t : PyDateTime) : Nat :=
  (((((t.year * 13 + t.month) * 32 + t.day) * 24 + t.hour) * 60 + t.minute) * 60 + t.second)
    * 1000000 + t.microsecond

/-- `a < b` on datetimes. -/
def dtLt (a b : PyDateTime) : Bool := a.key < b.key

/-- Decimal digit value of a character, else `none`. -/
def digitVal (c : Char) : Option Nat :=
  if c.isDigit then some (c.toNat - 48) else none

/-- Gregorian leap year. -/
def isLeap (y : Nat) : Bool := (y % 4 == 0 && y % 100 != 0) || y % 400 == 0

/-- Days in a month. -/
def daysInMonth (y m : Nat) : Nat :=
  if m == 2 then (if isLeap y then 29 else 28)
  else if m == 4 || m == 6 || m == 9 || m == 11 then 30
  else 31

/-- Parse two decimal digits. -/
def parse2 : List Char → Option (Nat × List Char)
  | a :: b :: rest => do
    let x ← digitVal a
    let y ← digitVal b
    pure (10 * x + y, rest)
  | _ => none

/-- Parse four decimal digits. -/
def parse4 : List Char → Option (Nat × List Char)
  | a :: b :: c :: d :: rest => do
    let x ← digitVal a
    let y ← digitVal b
    let z ← digitVal c
    let w ← digitVal d
    pure (((x * 10 + y) * 10 + z) * 10 + w, rest)
  | _ => none

/-- Fractional seconds: one or more decimal digits after the `.` (or
`,`) separator, truncated to microsecond precision as in the stdlib
parser; an empty or non-digit fraction is a `ValueError`. -/
def parseFraction (l : List Char) : Option Nat :=
  if l.isEmpty then none
  else if l.all Char.isDigit then
    some ((l.take 6).foldl (fun a c => a * 10 + (c.toNat - 48)) 0
      * 10 ^ (6 - (l.take 6).length))
  else none

/-- The time tail of an ISO timestamp: two-digit `HH`, optionally
`:MM`, optionally `:SS`, optionally a `.`/`,`-separated fraction, with
range validation.  Returns `(hour, minute, second, microsecond)`. -/
def parseTime (l : List Char) : Option (Nat × Nat × Nat × Nat) := do
  let (h, l) ← parse2 l
  if h < 24 then
    match l with
    | [] => pure (h, 0, 0, 0)
    | ':' :: l => do
      let (mi, l) ← parse2 l
      if mi < 60 then
        match l with
        | [] => pure (h, mi, 0, 0)
        | ':' :: l => do
          let (s, l) ← parse2 l
          if s < 60 then
            match l with
            | [] => pure (h, mi, s, 0)
            | '.' :: fl => do
              let f ← parseFraction fl
              pure (h, mi, s, f)
            | ',' :: fl => do
              let f ← parseFraction fl
              pure (h, mi, s, f)
            | _ => none
          else none
        | _ => none
      else none
    | _ => none
  else none

/-- `datetime.fromisoformat` on the naive extended-format shapes this
repository produces and consumes: `YYYY-MM-DD` with calendar validation,
optionally followed by any single separator character (the stdlib also
ignores the character at that position) and a time of `HH`, `HH:MM` or
`HH:MM:SS` with optional fractional seconds — in particular the
microsecond-bearing `datetime.now().isoformat()` / mtime-isoformat
strings that `get_last_updated` returns parse exactly.  `none` models
the `ValueError` branch.  Aware forms with a `Z`/UTC-offset suffix and
the dashless basic date format are outside the model: the repository
never writes them, and an aware value would not flow through the
filter's naive comparison anyway (Python raises `TypeError`, not the
caught `ValueError`, when comparing naive and aware datetimes). -/
def parseIso (s : String) : Option PyDateTime := do
  let (y, l) ← parse4 s.toList
  match l with
  | '-' :: l =>
    let (m, l) ← parse2 l
    match l with
    | '-' :: l => do
      let (d, l) ← parse2 l
      if 1 ≤ m && m ≤ 12 && 1 ≤ d && d ≤ daysInMonth y m then
        match l with
        | [] => pure ⟨y, m, d, 0, 0, 0, 0⟩
        | _ :: rest => do
          let (h, mi, sec, f) ← parseTime rest
          pure ⟨y, m, d, h, mi, sec, f⟩
      else none
    | _ => none
  | _ => none

/-- `fnmatch.fnmatch` for patterns built from `*` / `?` wildcards and
literal characters (the engine always matches against `*<partial>*`;
POSIX case-sensitive, `[...]` classes are not used by this repository). -/
def globMatch : List Char → List Char → Bool
  | [], [] => true
  | [], _ :: _ => false
  | '*' :: ps, [] => globMatch ps []
  | '*' :: ps, t :: ts => globMatch ps (t :: ts) || globMatch ('*' :: ps) ts
  | '?' :: ps, _ :: ts => globMatch ps ts
  | '?' :: _, [] => false
  | p :: ps, t :: ts => p == t && globMatch ps ts
  | _ :: _, [] => false
  termination_by p t => (p.length, t.length)

/-- The eight-field criteria value object of `filter_integrations`. -/
structure Criteria where
  name : Option String
  partialName : Option String
  tags : Option (List String)
  businessContact : Option String
  technicalContact : Option String
  lastUpdatedBefore : Option String
  lastUpdatedAfter : Option String
  descriptionContains : Option String
  deriving DecidableEq, Repr

/-- Python truthiness of an optional string criterion: `None` and the
empty string are falsy. -/
def activeS : Option String → Bool
  | none => false
  | some s => !(s == "")

/-- Python truthiness of the optional tag list: `None` and `[]` are falsy. -/
def activeL : Option (List String) → Bool
  | none => false
  | some l => !l.isEmpty

/-- The `last_updated_before` criterion, guarded by
`try/except ValueError`: the `"N/A"` sentinel short-circuits the `and`
(so the plugin is kept), an unparseable value or bound raises and
excludes, otherwise exclude exactly when the plugin is newer than the
bound. -/
def passBefore (lu bound : String) : Bool :=
  if lu == "N/A" then true
  else
    match parseIso lu with
    | none => false
    | some d =>
      match parseIso bound with
      | none => false
      | some b => !dtLt b d

/-- The `last_updated_after` criterion: the `"N/A"` sentinel is excluded
by the `or`, an unparseable value or bound raises and excludes, otherwise
exclude exactly when the plugin is older than the bound. -/
def passAfter (lu bound : String) : Bool :=
  if lu == "N/A" then false
  else
    match parseIso lu with
    | none => false
    | some d =>
      match parseIso bound with
      | none => false
      | some a => !dtLt d a

/-- One loop iteration of `filter_integrations`: the conjunction of the
eight independent criteria against a discovered name and its plugin. -/
def matchesCriteria (c : Criteria) (n : String) (p : PluginSrc) : Bool :=
  (match c.name with
   | none => true
   | some s => s == "" || n == s) &&
  (match c.partialName with
   | none => true
   | some s => s == "" || globMatch ('*' :: s.toList ++ ['*']) n.toList) &&
  (match c.tags with
   | none => true
   | some ts => ts.isEmpty || ts.all (fun t => p.tags.contains t)) &&
  (match c.businessContact with
   | none => true
   | some s => s == "" || p.businessContact == some s) &&
  (match c.technicalContact with
   | none => true
   | some s => s == "" || p.technicalContact == some s) &&
  (match c.lastUpdatedBefore with
   | none => true
   | some s => s == "" || passBefore p.lastUpdated s) &&
  (match c.lastUpdatedAfter with
   | none => true
   | some s => s == "" || passAfter p.lastUpdated s) &&
  (match c.descriptionContains with
   | none => true
   | some s =>
     s == "" || decide (s.toLower.toList <:+: (p.description.getD "").toLower.toList))

/-- The plugin directory as the filter engine sees it: the
`get_integrations()` listing together with each plugin's observable
content. -/
abbrev DiscoveredPlugins := List (String × PluginSrc)

/-- The selection loop of `filter_integrations`. -/
def filterList (plugins : DiscoveredPlugins) (c : Criteria) : List String :=
  (plugins.filter (fun q => matchesCriteria c q.1 q.2)).map (·.1)

/-! ### Canonical criteria serialization

`json.dumps(criteria, sort_keys=True)` with the default separators and
`ensure_ascii=True`. -/

/-- Lowercase hexadecimal digit. -/
def hexDigitChar (n : Nat) : Char :=
  if n < 10 then Char.ofNat (48 + n)
  else if n < 16 then Char.ofNat (87 + n)
  else '0'

/-- Four fixed-width hex digits, as in a `\uXXXX` escape. -/
def toHex4 (n : Nat) : List Char :=
  [hexDigitChar (n / 4096 % 16), hexDigitChar (n / 256 % 16),
   hexDigitChar (n / 16 % 16), hexDigitChar (n % 16)]

/-- `json.dumps` escaping of one character under `ensure_ascii=True`:
quote and backslash escaped, the shorthand control escapes, printable
ASCII literal, everything else as `\uXXXX` (with a surrogate pair beyond
the basic plane). -/
def escapeChar (c : Char) : List Char :=
  if c == '"' then ['\\', '"']
  else if c == '\\' then ['\\', '\\']
  else if c == '\x08' then ['\\', 'b']
  else if c == '\t' then ['\\', 't']
  else if c == '\n' then ['\\', 'n']
  else if c == '\x0c' then ['\\', 'f']
  else if c == '\r' then ['\\', 'r']
  else if 32 ≤ c.toNat && c.toNat ≤ 126 then [c]
  else if c.toNat < 65536 then '\\' :: 'u' :: toHex4 c.toNat
  else
    '\\' :: 'u' :: toHex4 (55296 + (c.toNat - 65536) / 1024)
      ++ '\\' :: 'u' :: toHex4 (56320 + (c.toNat - 65536) % 1024)

/-- A JSON string literal. -/
def jsonString (s : String) : List Char :=
  '"' :: s.toList.flatMap escapeChar ++ ['"']

/-- An optional string field: `null` or a string literal. -/
def jsonOptStr : Option String → List Char
  | none => "null".toList
  | some s => jsonString s

/-- The `tags` field: `null` or a JSON array of string literals joined by
the default `", "` item separator. -/
def jsonOptStrList : Option (List String) → List Char
  | none => "null".toList
  | some l => '[' :: (List.intercalate (", ".toList) (l.map jsonString)) ++ [']']

/-- One `"key": value` member. -/
def jsonMember (key : String) (v : List Char) : List Char :=
  jsonString key ++ ':' :: ' ' :: v

/-- `json.dumps(criteria, sort_keys=True)`: the eight members in sorted
key order inside one object. -/
def criteriaJson (c : Criteria) : List Char :=
  '\x7b' ::
    (List.intercalate (", ".toList)
      [jsonMember "business_contact" (jsonOptStr c.businessContact),
       jsonMember "description_contains" (jsonOptStr c.descriptionContains),
       jsonMember "last_updated_after" (jsonOptStr c.lastUpdatedAfter),
       jsonMember "last_updated_before" (jsonOptStr c.lastUpdatedBefore),
       jsonMember "name" (jsonOptStr c.name),
       jsonMember "partial_name" (jsonOptStr c.partialName),
       jsonMember "tags" (jsonOptStrList c.tags),
       jsonMember "technical_contact" (jsonOptStr c.technicalContact)])
    ++ ['\x7d']

/-! ### SHA-256 (`hashlib.sha256`), on 32-bit words as `Nat % 2^32` -/

/-- `2 ^ 32`. -/
def w32 : Nat := 4294967296

/-- Word addition modulo `2 ^ 32`. -/
def add32 (a b : Nat) : Nat := (a + b) % w32

/-- Bitwise complement inside a 32-bit word. -/
def not32 (a : Nat) : Nat := 4294967295 - a % w32

/-- Right rotation of a 32-bit word. -/
def rotr (n a : Nat) : Nat := ((a >>> n) ||| (a <<< (32 - n))) % w32

/-- SHA-256 `Ch`. -/
def shaCh (x y z : Nat) : Nat := (x &&& y) ^^^ (not32 x &&& z)

/-- SHA-256 `Maj`. -/
def shaMaj (x y z : Nat) : Nat := (x &&& y) ^^^ (x &&& z) ^^^ (y &&& z)

/-- SHA-256 `Σ₀`. -/
def bigSigma0 (x : Nat) : Nat := rotr 2 x ^^^ rotr 13 x ^^^ rotr 22 x

/-- SHA-256 `Σ₁`. -/
def bigSigma1 (x : Nat) : Nat := rotr 6 x ^^^ rotr 11 x ^^^ rotr 25 x

/-- SHA-256 `σ₀`. -/
def smallSigma0 (x : Nat) : Nat := rotr 7 x ^^^ rotr 18 x ^^^ (x >>> 3)

/-- SHA-256 `σ₁`. -/
def smallSigma1 (x : Nat) : Nat := rotr 17 x ^^^ rotr 19 x ^^^ (x >>> 10)

/-- The 64 SHA-256 round constants (FIPS 180-4, written in decimal). -/
def shaK : List Nat :=
  [1116352408, 1899447441, 3049323471, 3921009573, 961987163,
   1508970993, 2453635748, 2870763221, 3624381080, 310598401,
   607225278, 1426881987, 1925078388, 2162078206, 2614888103,
   3248222580, 3835390401, 4022224774, 264347078, 604807628,
   770255983, 1249150122, 1555081692, 1996064986, 2554220882,
   2821834349, 2952996808, 3210313671, 3336571891, 3584528711,
   113926993, 338241895, 666307205, 773529912, 1294757372,
   1396182291, 1695183700, 1986661051, 2177026350, 2456956037,
   2730485921, 2820302411, 3259730800, 3345764771, 3516065817,
   3600352804, 4094571909, 275423344, 430227734, 506948616,
   659060556, 883997877, 958139571, 1322822218, 1537002063,
   1747873779, 1955562222, 2024104815, 2227730452, 2361852424,
   2428436474, 2756734187, 3204031479, 3329325298]

/-- The eight-word SHA-256 working state / digest. -/
structure Hash8 where
  h0 : Nat
  h1 : Nat
  h2 : Nat
  h3 : Nat
  h4 : Nat
  h5 : Nat
  h6 : Nat
  h7 : Nat
  deriving DecidableEq, Repr

/-- SHA-256 initial hash value (FIPS 180-4, written in decimal). -/
def shaInit : Hash8 :=
  ⟨1779033703, 3144134277, 1013904242, 2773480762,
   1359893119, 2600822924, 528734635, 1541459225⟩

/-- Big-endian byte expansion of `n` into `k` bytes. -/
def beBytes (k n : Nat) : List Nat :=
  (List.range k).map (fun i => n / 256 ^ (k - 1 - i) % 256)

/-- SHA-256 padding: `0x80`, zeros to 56 mod 64, then the 64-bit
big-endian bit length. -/
def padMessage (msg : List Nat) : List Nat :=
  msg ++ 128 :: List.replicate ((64 - (msg.length + 9) % 64) % 64) 0
      ++ beBytes 8 (8 * msg.length)

/-- Big-endian 32-bit words from a byte list. -/
def toWords : List Nat → List Nat
  | a :: b :: c :: d :: rest => (((a * 256 + b) * 256 + c) * 256 + d) :: toWords rest
  | _ => []

/-- Split a word list into 16-word blocks. -/
def blocks16 : List Nat → List (List Nat)
  | [] => []
  | x :: rest => ((x :: rest).take 16) :: blocks16 ((x :: rest).drop 16)
  termination_by l => l.length
  decreasing_by simp [List.length_drop]; omega

/-- Extend a 16-word block to the 64-word message schedule. -/
def schedule (block : List Nat) : List Nat :=
  (List.range 48).foldl
    (fun w _ =>
      w ++ [add32 (add32 (smallSigma1 (w.getD (w.length - 2) 0)) (w.getD (w.length - 7) 0))
              (add32 (smallSigma0 (w.getD (w.length - 15) 0)) (w.getD (w.length - 16) 0))])
    block

/-- One SHA-256 round on the working state, given `(Kₜ, Wₜ)`. -/
def shaRound (s : Hash8) (kw : Nat × Nat) : Hash8 :=
  let t1 := add32 s.h7 (add32 (bigSigma1 s.h4) (add32 (shaCh s.h4 s.h5 s.h6) (add32 kw.1 kw.2)))
  let t2 := add32 (bigSigma0 s.h0) (shaMaj s.h0 s.h1 s.h2)
  ⟨add32 t1 t2, s.h0, s.h1, s.h2, add32 s.h3 t1, s.h4, s.h5, s.h6⟩

/-- Compress one block into the hash state. -/
def compressBlock (h : Hash8) (block : List Nat) : Hash8 :=
  let s := (shaK.zip (schedule block)).foldl shaRound h
  ⟨add32 h.h0 s.h0, add32 h.h1 s.h1, add32 h.h2 s.h2, add32 h.h3 s.h3,
   add32 h.h4 s.h4, add32 h.h5 s.h5, add32 h.h6 s.h6, add32 h.h7 s.h7⟩

/-- The SHA-256 digest of a byte list, as the eight final words. -/
def sha256 (msg : List Nat) : Hash8 :=
  (blocks16 (toWords (padMessage msg))).foldl compressBlock shaInit

/-- Eight lowercase hex digits of one 32-bit word. -/
def wordHex (w : Nat) : List Char :=
  (List.range 8).map (fun i => hexDigitChar (w / 16 ^ (7 - i) % 16))

/-- `hashlib.sha256(...).hexdigest()` as a 64-character list: the eight
digest words rendered as eight hex digits each. -/
def sha256hex (msg : List Nat) : List Char :=
  let d := sha256 msg
  [d.h0, d.h1, d.h2, d.h3, d.h4, d.h5, d.h6, d.h7].flatMap wordHex

/-- UTF-8 bytes of the serialized criteria.  With `ensure_ascii=True`
every serialized character is ASCII, so the encoding is the codepoint
list. -/
def asciiBytes (l : List Char) : List Nat := l.map Char.toNat

/-- `hashlib.sha256(criteria_json.encode()).hexdigest()[:8]`. -/
def fingerprint (c : Criteria) : String :=
  String.mk ((sha256hex (asciiBytes (criteriaJson c))).take 8)

/-- `BatchRunner.filter_integrations`: the selected names and the
criteria hash (computed from the criteria alone, before the loop). -/
def filterIntegrations (plugins : DiscoveredPlugins) (c : Criteria) :
    List String × String :=
  (filterList plugins c, fingerprint c)

/-- `BatchRunner.run_filtered` in a single-interpreter mode: select by
criteria, then dispatch the loop; a name is run by loading it from the
same plugin directory. -/
def runFiltered (plugins : DiscoveredPlugins) (c : Criteria) (mode : ExecMode) :
    RunEffects :=
  runBatch (fun n => (alookup plugins n).getD absentPlugin) mode
    (filterIntegrations plugins c).1

/-! ## Metrics store report (`telemetry.py`) -/

/-- The decorated `log_with_backoff` call as an explicit conditional on
the suppression-window test. -/
theorem logWithBackoff_eq (st : BackoffState) (key msg : String) (t : ℚ) :
    logWithBackoff st key msg t =
      if t < ((alookup st key).getD (0, 0)).1
          + min (initialDelay * multiplier ^ ((alookup st key).getD (0, 0)).2) maxDelay
      then ⟨false, t, aset st key (((alookup st key).getD (0, 0)).1, 0), []⟩
      else ⟨true, t, aset st key (t, 0), [msg]⟩ := by
  by_cases h : t < ((alookup st key).getD (0, 0)).1
      + min (initialDelay * multiplier ^ ((alookup st key).getD (0, 0)).2) maxDelay
  · simp only [logWithBackoff, shouldLog, if_pos h]
  · simp only [logWithBackoff, shouldLog, if_neg h]

/-! ## Claim theorems -/

/-- C6: for every channel key and emission attempt the backoff state
evolves as a step function: the suppression window is
`min(initial_delay * multiplier^retry_count, max_delay) = min(1 * 2^retry, 60)`
measured from `last_emit_time`; an attempt outside the window is emitted
and the stored state becomes `(observed time, 0)`; an attempt inside the
window is suppressed, emits nothing, and the stored state becomes
`(last_emit_time, 0)` — retry count reset, last emission time unchanged,
so the next attempt is judged against the base delay. -/
theorem c6_backoff_step (st : BackoffState) (key msg : String) (t : ℚ) :
    ((logWithBackoff st key msg t).emitted
      = !decide (t < ((alookup st key).getD (0, 0)).1
          + min ((1 : ℚ) * 2 ^ ((alookup st key).getD (0, 0)).2) 60))
    ∧ (alookup (logWithBackoff st key msg t).state key
      = some (if t < ((alookup st key).getD (0, 0)).1
            + min ((1 : ℚ) * 2 ^ ((alookup st key).getD (0, 0)).2) 60
          then (((alookup st key).getD (0, 0)).1, 0) else (t, 0)))
    ∧ ((logWithBackoff st key msg t).logOutput
      = if t < ((alookup st key).getD (0, 0)).1
            + min ((1 : ℚ) * 2 ^ ((alookup st key).getD (0, 0)).2) 60
        then [] else [msg]) := by
  rw [logWithBackoff_eq]
  simp only [initialDelay, multiplier, maxDelay]
  by_cases h : t < ((alookup st key).getD (0, 0)).1
      + min ((1 : ℚ) * 2 ^ ((alookup st key).getD (0, 0)).2) 60
  · refine ⟨?_, ?_, ?_⟩
    · rw [if_pos h, decide_eq_true h]
      rfl
    · rw [if_pos h, if_pos h]
      exact alookup_aset_self _ _ _
    · rw [if_pos h, if_pos h]
  · refine ⟨?_, ?_, ?_⟩
    · rw [if_neg h, decide_eq_false h]
      rfl
    · rw [if_neg h, if_neg h]
      exact alookup_aset_self _ _ _
    · rw [if_neg h, if_neg h]

/-- Witness for C6: a concrete suppressed attempt (key present with
retry count 2, inside the window `min(1·2², 60) = 4`) observes the
claimed step: not emitted, retry count reset, last emission kept. -/
theorem c6_backoff_step_witness :
    ((logWithBackoff [("k", ((10 : ℚ), 2))] "k" "m" 11).emitted = false)
    ∧ (alookup (logWithBackoff [("k", ((10 : ℚ), 2))] "k" "m" 11).state "k"
        = some ((10 : ℚ), 0)) := by
  have h := c6_backoff_step [("k", ((10 : ℚ), 2))] "k" "m" 11
  have hcond : (11 : ℚ) < ((alookup [("k", ((10 : ℚ), 2))] "k").getD (0, 0)).1
      + min ((1 : ℚ) * 2 ^ ((alookup [("k", ((10 : ℚ), 2))] "k").getD (0, 0)).2) 60 := by
    show (11 : ℚ) < 10 + min ((1 : ℚ) * 2 ^ (2 : Nat)) 60
    norm_num
  constructor
  · rw [h.1, decide_eq_true hcond]
    rfl
  · rw [h.2.1, if_pos hcond]
    rfl

/-- C7: on one channel with `initial_delay` 1.0 and no prior traffic, a
`notify` at time `t₀ ≥ 1` is emitted, a second `notify` 0.5 s later is
suppressed (returns not-emitted, writes no log message), and a third
`notify` 1.1 s after the first is emitted. -/
theorem c7_backoff_suppression (name msg : String) (t0 : ℚ) (h1 : 1 ≤ t0) :
    ((notify [] msg (some name) t0).emitted = true)
    ∧ ((notify (notify [] msg (some name) t0).state msg (some name) (t0 + 0.5)).emitted
        = false)
    ∧ ((notify (notify [] msg (some name) t0).state msg (some name) (t0 + 0.5)).logOutput
        = [])
    ∧ ((notify
          (notify (notify [] msg (some name) t0).state msg (some name) (t0 + 0.5)).state
          msg (some name) (t0 + 1.1)).emitted = true) := by
  simp only [notify]
  set key := "notify_" ++ notifyChannel (some name) with hk
  have hc1 : ¬ t0 < ((alookup ([] : BackoffState) key).getD (0, 0)).1
      + min (initialDelay * multiplier ^ ((alookup ([] : BackoffState) key).getD (0, 0)).2)
          maxDelay := by
    simp only [alookup, Option.getD_none, initialDelay, multiplier, maxDelay,
      pow_zero, mul_one, zero_add]
    rw [min_eq_left (by norm_num : (1 : ℚ) ≤ 60)]
    linarith
  have hr1 : logWithBackoff [] key msg t0 = ⟨true, t0, [(key, (t0, 0))], [msg]⟩ := by
    rw [logWithBackoff_eq, if_neg hc1]
    rfl
  have hl1 : alookup [(key, (t0, 0))] key = some (t0, 0) := by
    simp [alookup]
  have hc2 : (t0 + 0.5) < ((alookup [(key, (t0, 0))] key).getD (0, 0)).1
      + min (initialDelay * multiplier ^ ((alookup [(key, (t0, 0))] key).getD (0, 0)).2)
          maxDelay := by
    rw [hl1]
    simp only [Option.getD_some, initialDelay, multiplier, maxDelay, pow_zero, mul_one]
    rw [min_eq_left (by norm_num : (1 : ℚ) ≤ 60)]
    norm_num
  have hr2 : logWithBackoff [(key, (t0, 0))] key msg (t0 + 0.5)
      = ⟨false, t0 + 0.5, [(key, (t0, 0))], []⟩ := by
    rw [logWithBackoff_eq, if_pos hc2, hl1]
    simp [aset]
  have hc3 : ¬ (t0 + 1.1) < ((alookup [(key, (t0, 0))] key).getD (0, 0)).1
      + min (initialDelay * multiplier ^ ((alookup [(key, (t0, 0))] key).getD (0, 0)).2)
          maxDelay := by
    rw [hl1]
    simp only [Option.getD_some, initialDelay, multiplier, maxDelay, pow_zero, mul_one]
    rw [min_eq_left (by norm_num : (1 : ℚ) ≤ 60)]
    norm_num
  have hr3 : (logWithBackoff [(key, (t0, 0))] key msg (t0 + 1.1)).emitted = true := by
    rw [logWithBackoff_eq, if_neg hc3]
  refine ⟨?_, ?_, ?_, ?_⟩
  · simp only [hr1]
  · simp only [hr1, hr2]
  · simp only [hr1, hr2]
  · simp only [hr1, hr2]
    exact hr3

/-- Witness for C7 at `t₀ = 1000` (the repository test's clock). -/
theorem c7_backoff_suppression_witness :
    ((notify [] "m" (some "ch") 1000).emitted = true)
    ∧ ((notify (notify [] "m" (some "ch") 1000).state "m" (some "ch")
        (1000 + 0.5)).emitted = false)
    ∧ ((notify (notify [] "m" (some "ch") 1000).state "m" (some "ch")
        (1000 + 0.5)).logOutput = [])
    ∧ ((notify
          (notify (notify [] "m" (some "ch") 1000).state "m" (some "ch")
            (1000 + 0.5)).state
          "m" (some "ch") (1000 + 1.1)).emitted = true) :=
  c7_backoff_suppression "ch" "m" 1000 (by norm_num)

/-- C9: a channel key with no entry defaults to
`(last_emit_time, retry_count) = (0.0, 0)`, so its suppression window is
exactly the base delay measured from clock zero: every first attempt at
an observed time `≥ initial_delay = 1` is emitted (never suppressed),
writes its message, and stores `(t, 0)`. -/
theorem c9_fresh_channel_emits (st : BackoffState) (key msg : String) (t : ℚ)
    (habsent : alookup st key = none) (ht : 1 ≤ t) :
    ((logWithBackoff st key msg t).emitted = true)
    ∧ (alookup (logWithBackoff st key msg t).state key = some (t, 0))
    ∧ ((logWithBackoff st key msg t).logOutput = [msg]) := by
  rw [logWithBackoff_eq]
  have hwin : ¬ t < ((alookup st key).getD (0, 0)).1
      + min (initialDelay * multiplier ^ ((alookup st key).getD (0, 0)).2) maxDelay := by
    rw [habsent]
    simp only [Option.getD_none, initialDelay, multiplier, maxDelay, pow_zero,
      mul_one, zero_add]
    rw [min_eq_left (by norm_num)]
    linarith
  rw [if_neg hwin]
  exact ⟨rfl, alookup_aset_self _ _ _, rfl⟩

/-- Witness for C9: a fresh channel in a state holding another key. -/
theorem c9_fresh_channel_emits_witness :
    ((logWithBackoff [("other", ((50 : ℚ), 1))] "k" "m" 3).emitted = true)
    ∧ (alookup (logWithBackoff [("other", ((50 : ℚ), 1))] "k" "m" 3).state "k"
        = some ((3 : ℚ), 0)) := by
  have h := c9_fresh_channel_emits [("other", ((50 : ℚ), 1))] "k" "m" 3
    rfl (by norm_num)
  exact ⟨h.1, h.2.1⟩

/-- C4: whenever the cache holds no authoritative fresh entry for the
name (absent, expired, or malformed — the recompute path of
`validate_integration`) and the plugin's loaded config has `enabled`
falsy (including a missing config file, which yields the empty mapping),
`validate_integration` returns `true` regardless of whether the
implementation can be loaded or constructed, and writes the verdict back
to the cache with the fresh timestamp — one cache write, no
implementation load, no construction. -/
theorem c4_disabled_trivially_valid (env : String → PluginSrc) (cache : Cache)
    (name : String) (now : ℚ) (hmiss : freshVerdict cache name now = none)
    (hdis : enabledOf (env name) = false) :
    ((validateIntegration env cache name now).1 = true)
    ∧ (alookup (validateIntegration env cache name now).2.1 name
        = some ⟨true, some now⟩)
    ∧ ((validateIntegration env cache name now).2.2 = ⟨1, 0, 0, 1⟩) := by
  unfold validateIntegration
  rw [hmiss]
  simp only [hdis]
  exact ⟨rfl, alookup_aset_self _ _ _, rfl⟩

/-- Witness for C4: a plugin whose config file is missing (empty mapping,
hence disabled) and whose implementation does not even resolve is still
validated `true`, and the verdict lands in the cache. -/
theorem c4_disabled_trivially_valid_witness :
    ((validateIntegration (fun _ => absentPlugin) [] "ghost" 500).1 = true)
    ∧ (alookup (validateIntegration (fun _ => absentPlugin) [] "ghost" 500).2.1 "ghost"
        = some ⟨true, some 500⟩) := by
  have h := c4_disabled_trivially_valid (fun _ => absentPlugin) [] "ghost" 500 rfl rfl
  exact ⟨h.1, h.2.1⟩

/-- C5: with no cache entry for the name, two `validate_integration`
calls whose clocks satisfy `t₂ - t₁ < TTL` (24 h) and unchanged disk
state return the same boolean, perform the expensive recomputation
(implementation load and construction) at most once across the two
calls, and the second call is answered entirely from the cache entry the
first call wrote (no effects at all). -/
theorem validate_recompute_shape (env : String → PluginSrc) (cache : Cache)
    (name : String) (t1 : ℚ) (hfresh : freshVerdict cache name t1 = none) :
    ∃ v : Bool, ∃ eff : VEffects,
      validateIntegration env cache name t1 = (v, aset cache name ⟨v, some t1⟩, eff)
      ∧ eff.constructs ≤ 1 := by
  by_cases hd : enabledOf (env name) = false
  · exact ⟨true, ⟨1, 0, 0, 1⟩, by simp [validateIntegration, hfresh, hd], by norm_num⟩
  · cases himpl : (env name).impl with
    | none =>
      exact ⟨false, ⟨1, 1, 0, 1⟩,
        by simp [validateIntegration, hfresh, hd, himpl], by norm_num⟩
    | some i =>
      cases hc : i.construct with
      | ok u =>
        exact ⟨true, ⟨1, 1, 1, 1⟩,
          by simp [validateIntegration, hfresh, hd, himpl, hc], le_refl 1⟩
      | error e =>
        exact ⟨false, ⟨1, 1, 1, 1⟩,
          by simp [validateIntegration, hfresh, hd, himpl, hc], le_refl 1⟩

theorem c5_validation_cache_idempotent (env : String → PluginSrc) (cache : Cache)
    (name : String) (t1 t2 : ℚ) (hmiss : alookup cache name = none)
    (httl : t2 - t1 < cacheTTL) :
    ((validateIntegration env (validateIntegration env cache name t1).2.1 name t2).1
      = (validateIntegration env cache name t1).1)
    ∧ ((validateIntegration env cache name t1).2.2.constructs
        + (validateIntegration env
            (validateIntegration env cache name t1).2.1 name t2).2.2.constructs ≤ 1)
    ∧ ((validateIntegration env
          (validateIntegration env cache name t1).2.1 name t2).2.2 = ⟨0, 0, 0, 0⟩) := by
  have hfresh1 : freshVerdict cache name t1 = none := by
    unfold freshVerdict
    rw [hmiss]
  obtain ⟨v, eff, heq, hk⟩ := validate_recompute_shape env cache name t1 hfresh1
  have hfresh2 : freshVerdict (aset cache name ⟨v, some t1⟩) name t2 = some v := by
    unfold freshVerdict
    rw [alookup_aset_self]
    simp only [if_pos httl]
  have hsecond : validateIntegration env (aset cache name ⟨v, some t1⟩) name t2
      = (v, aset cache name ⟨v, some t1⟩, ⟨0, 0, 0, 0⟩) := by
    unfold validateIntegration
    rw [hfresh2]
  rw [heq]
  refine ⟨by simp [hsecond], ?_, by simp [hsecond]⟩
  simp only [hsecond]
  simpa using hk

/-- Witness for C5: an enabled plugin whose constructor succeeds is
validated once against an empty cache at `t₁ = 100`, then again at
`t₂ = 200`: the results agree and construction happened exactly once. -/
theorem c5_validation_cache_idempotent_witness :
    ((validateIntegration
        (fun _ => ⟨some ⟨some true⟩, some ⟨.ok (), .ok "d", fun d => .ok d, fun _ => .ok ()⟩,
          1, [], none, none, none, "N/A"⟩)
        (validateIntegration
          (fun _ => ⟨some ⟨some true⟩, some ⟨.ok (), .ok "d", fun d => .ok d, fun _ => .ok ()⟩,
            1, [], none, none, none, "N/A"⟩) [] "p" 100).2.1 "p" 200).1
      = (validateIntegration
          (fun _ => ⟨some ⟨some true⟩, some ⟨.ok (), .ok "d", fun d => .ok d, fun _ => .ok ()⟩,
            1, [], none, none, none, "N/A"⟩) [] "p" 100).1)
    ∧ ((validateIntegration
          (fun _ => ⟨some ⟨some true⟩, some ⟨.ok (), .ok "d", fun d => .ok d, fun _ => .ok ()⟩,
            1, [], none, none, none, "N/A"⟩) [] "p" 100).2.2.constructs
        + (validateIntegration
            (fun _ => ⟨some ⟨some true⟩, some ⟨.ok (), .ok "d", fun d => .ok d, fun _ => .ok ()⟩,
              1, [], none, none, none, "N/A"⟩)
            (validateIntegration
              (fun _ => ⟨some ⟨some true⟩, some ⟨.ok (), .ok "d", fun d => .ok d, fun _ => .ok ()⟩,
                1, [], none, none, none, "N/A"⟩) [] "p" 100).2.1 "p" 200).2.2.constructs
        ≤ 1) := by
  have h := c5_validation_cache_idempotent
    (fun _ => ⟨some ⟨some true⟩, some ⟨.ok (), .ok "d", fun d => .ok d, fun _ => .ok ()⟩,
      1, [], none, none, none, "N/A"⟩)
    [] "p" 100 200 rfl (by norm_num [cacheTTL])
  exact ⟨h.1, h.2.1⟩

/-- C10: when the cache holds a well-formed entry for the requested name
whose timestamp parses and lies within the 24-hour TTL,
`validate_integration` returns that cached verdict and performs no other
effect: the cache value is unchanged and not rewritten, no config is
read (and metadata is never read by validation at all), and no
implementation is loaded or constructed. -/
theorem c10_cache_hit_frame (env : String → PluginSrc) (cache : Cache)
    (name : String) (now : ℚ) (e : CEntry) (t : ℚ)
    (hentry : alookup cache name = some e) (hts : e.timestamp = some t)
    (httl : now - t < cacheTTL) :
    validateIntegration env cache name now = (e.valid, cache, ⟨0, 0, 0, 0⟩) := by
  simp only [validateIntegration, freshVerdict, hentry, hts, if_pos httl]

/-- Witness for C10: a fresh cached `false` verdict is returned as-is —
even though the plugin on disk is enabled with a working constructor —
with no reads, loads, constructions or writes. -/
theorem c10_cache_hit_frame_witness :
    validateIntegration
        (fun _ => ⟨some ⟨some true⟩, some ⟨.ok (), .ok "d", fun d => .ok d, fun _ => .ok ()⟩,
          1, [], none, none, none, "N/A"⟩)
        [("p", ⟨false, some 1000⟩)] "p" 1500
      = (false, [("p", ⟨false, some 1000⟩)], ⟨0, 0, 0, 0⟩) :=
  c10_cache_hit_frame
    (fun _ => ⟨some ⟨some true⟩, some ⟨.ok (), .ok "d", fun d => .ok d, fun _ => .ok ()⟩,
      1, [], none, none, none, "N/A"⟩)
    [("p", ⟨false, some 1000⟩)] "p" 1500 ⟨false, some 1000⟩ 1000
    rfl rfl (by norm_num [cacheTTL])

/-- C1: in a sequential or cooperative batch over any selected names,
every selected plugin's run contributes its telemetry rows and log lines
to the batch regardless of what the other plugins do (`runIntegration`
is total, so no plugin's exception ever reaches the dispatch loop); and
a plugin whose guarded body (construction, fetch, transform or deliver)
raises `m` has a failed `RunOutcome` carrying exactly `m`, plus the
failure log line, recorded in the batch. -/
theorem c1_failure_isolation (env : String → PluginSrc) (mode : ExecMode)
    (names : List String) (name : String) (hmem : name ∈ names) :
    (∀ r ∈ (runIntegration env name).telemetry, r ∈ (runBatch env mode names).telemetry)
    ∧ (∀ s ∈ (runIntegration env name).logs, s ∈ (runBatch env mode names).logs)
    ∧ (∀ i m, enabledOf (env name) = true → (env name).impl = some i →
        runStages i = .error m →
        ((⟨name, "failed", (env name).runDuration, some m⟩ : RunRow)
            ∈ (runBatch env mode names).telemetry)
        ∧ (("Integration " ++ name ++ " failed: " ++ m)
            ∈ (runBatch env mode names).logs)) := by
  refine ⟨?_, ?_, ?_⟩
  · intro r hr
    rw [runBatch_telemetry]
    exact List.mem_flatMap.2 ⟨name, hmem, hr⟩
  · intro s hs
    rw [runBatch_logs]
    exact List.mem_flatMap.2 ⟨name, hmem, hs⟩
  · intro i m hen himpl herr
    have hrun : runIntegration env name
        = ⟨[⟨name, "failed", (env name).runDuration, some m⟩], [],
           ["Integration " ++ name ++ " failed: " ++ m]⟩ := by
      simp [runIntegration, hen, himpl, herr]
    constructor
    · rw [runBatch_telemetry]
      refine List.mem_flatMap.2 ⟨name, hmem, ?_⟩
      rw [hrun]
      exact List.mem_singleton_self _
    · rw [runBatch_logs]
      refine List.mem_flatMap.2 ⟨name, hmem, ?_⟩
      rw [hrun]
      exact List.mem_singleton_self _

/-- Implementation that completes all four stages. -/
def cwImplOk : IntegrationImpl :=
  ⟨.ok (), .ok "payload", fun d => .ok d, fun _ => .ok ()⟩

/-- Implementation whose `fetch_data` raises `"boom"`. -/
def cwImplBoom : IntegrationImpl :=
  ⟨.ok (), .error "boom", fun d => .ok d, fun _ => .ok ()⟩

/-- Three enabled plugins; the second one throws during fetch. -/
def cwEnv : String → PluginSrc := fun n =>
  if n = "b" then ⟨some ⟨some true⟩, some cwImplBoom, 1, [], none, none, none, "N/A"⟩
  else ⟨some ⟨some true⟩, some cwImplOk, 1, [], none, none, none, "N/A"⟩

/-- Witness for C1: with plugins `a, b, c` where `b` throws during fetch,
the sequential batch still records a success outcome for `a` and for `c`,
and a failed outcome for `b` carrying the exception message. -/
theorem c1_failure_isolation_witness :
    ((⟨"b", "failed", 1, some "boom"⟩ : RunRow)
        ∈ (runBatch cwEnv .sequential ["a", "b", "c"]).telemetry)
    ∧ ((⟨"a", "success", 1, none⟩ : RunRow)
        ∈ (runBatch cwEnv .sequential ["a", "b", "c"]).telemetry)
    ∧ ((⟨"c", "success", 1, none⟩ : RunRow)
        ∈ (runBatch cwEnv .sequential ["a", "b", "c"]).telemetry) := by
  have ha := (c1_failure_isolation cwEnv .sequential ["a", "b", "c"] "a" (by simp)).1
  have hb := (c1_failure_isolation cwEnv .sequential ["a", "b", "c"] "b" (by simp)).2.2
    cwImplBoom "boom" rfl rfl rfl
  have hc := (c1_failure_isolation cwEnv .sequential ["a", "b", "c"] "c" (by simp)).1
  refine ⟨hb.1, ?_, ?_⟩
  · refine ha _ ?_
    rw [show (runIntegration cwEnv "a").telemetry
        = [⟨"a", "success", 1, none⟩] from rfl]
    exact List.mem_singleton_self _
  · refine hc _ ?_
    rw [show (runIntegration cwEnv "c").telemetry
        = [⟨"c", "success", 1, none⟩] from rfl]
    exact List.mem_singleton_self _

theorem hexDigitChar_mem (n : Nat) : hexDigitChar n ∈ "0123456789abcdef".toList := by
  unfold hexDigitChar
  by_cases h1 : n < 10
  · rw [if_pos h1]
    interval_cases n <;> decide
  · rw [if_neg h1]
    by_cases h2 : n < 16
    · rw [if_pos h2]
      have h3 : 10 ≤ n := Nat.le_of_not_lt h1
      interval_cases n <;> decide
    · rw [if_neg h2]
      decide

theorem wordHex_mem (w : Nat) : ∀ ch ∈ wordHex w, ch ∈ "0123456789abcdef".toList := by
  intro ch hch
  obtain ⟨i, _, rfl⟩ := List.mem_map.1 hch
  exact hexDigitChar_mem _

theorem sha256hex_mem (msg : List Nat) :
    ∀ ch ∈ sha256hex msg, ch ∈ "0123456789abcdef".toList := by
  intro ch hch
  simp only [sha256hex] at hch
  obtain ⟨w, _, hw⟩ := List.mem_flatMap.1 hch
  exact wordHex_mem _ _ hw

theorem sha256hex_length (msg : List Nat) : (sha256hex msg).length = 64 := by
  simp [sha256hex, wordHex]

/-- C2: the criteria fingerprint is a function of the eight criteria
fields alone — for field-identical criteria objects,
`filter_integrations` returns the identical fingerprint no matter which
plugins are on disk or currently match in either invocation — and that
fingerprint is always exactly eight lowercase hexadecimal characters. -/
theorem c2_fingerprint_determinism (c1 c2 : Criteria)
    (plugins1 plugins2 : DiscoveredPlugins)
    (hname : c1.name = c2.name) (hpart : c1.partialName = c2.partialName)
    (htags : c1.tags = c2.tags) (hbus : c1.businessContact = c2.businessContact)
    (htech : c1.technicalContact = c2.technicalContact)
    (hbef : c1.lastUpdatedBefore = c2.lastUpdatedBefore)
    (haft : c1.lastUpdatedAfter = c2.lastUpdatedAfter)
    (hdesc : c1.descriptionContains = c2.descriptionContains) :
    ((filterIntegrations plugins1 c1).2 = (filterIntegrations plugins2 c2).2)
    ∧ ((filterIntegrations plugins1 c1).2.length = 8)
    ∧ (∀ ch ∈ (filterIntegrations plugins1 c1).2.toList,
        ch ∈ "0123456789abcdef".toList) := by
  have hc : c1 = c2 := by
    cases c1
    cases c2
    simp_all
  subst hc
  refine ⟨rfl, ?_, ?_⟩
  · show (fingerprint c1).length = 8
    show ((sha256hex (asciiBytes (criteriaJson c1))).take 8).length = 8
    rw [List.length_take, sha256hex_length]
    decide
  · intro ch hch
    have hch' : ch ∈ (sha256hex (asciiBytes (criteriaJson c1))).take 8 := hch
    exact sha256hex_mem _ _ (List.take_subset _ _ hch')

/-- Witness for C2: the all-`None` criteria against an empty plugin
directory and against a one-plugin directory produce the identical
eight-character fingerprint. -/
theorem c2_fingerprint_determinism_witness :
    ((filterIntegrations [] ⟨none, none, none, none, none, none, none, none⟩).2
      = (filterIntegrations [("p", absentPlugin)]
          ⟨none, none, none, none, none, none, none, none⟩).2)
    ∧ ((filterIntegrations [] ⟨none, none, none, none, none, none, none, none⟩).2.length
        = 8) := by
  have h := c2_fingerprint_determinism
    ⟨none, none, none, none, none, none, none, none⟩
    ⟨none, none, none, none, none, none, none, none⟩
    [] [("p", absentPlugin)] rfl rfl rfl rfl rfl rfl rfl rfl
  exact ⟨h.1, h.2.1⟩

/-- An enabled plugin whose computed last-updated value is the `"N/A"`
sentinel. -/
def naPlugin : PluginSrc :=
  ⟨some ⟨some true⟩, none, 0, [], none, none, none, "N/A"⟩

/-- Counterexample to C3 as stated: a plugin whose last-updated value is
the `"N/A"` sentinel is NOT excluded by a non-empty
`last-updated-before` filter — the `last_updated != "N/A" and ...`
short-circuit in `filter_integrations` keeps it in the result. -/
theorem c3_na_passes_before_counterexample :
    "stale" ∈ (filterIntegrations [("stale", naPlugin)]
        ⟨none, none, none, none, none, some "2024-01-01", none, none⟩).1 := by
  rw [show (filterIntegrations [("stale", naPlugin)]
      ⟨none, none, none, none, none, some "2024-01-01", none, none⟩).1
    = ["stale"] from rfl]
  exact List.mem_singleton_self _

/-- C3 (amended): for a plugin of unknown freshness, a non-empty
`last-updated-after` filter always excludes it (both for the `"N/A"`
sentinel and for an unparseable value), while a non-empty
`last-updated-before` filter excludes it only when the value is
unparseable and not the sentinel — the `"N/A"` sentinel passes the
before filter. -/
theorem c3_unknown_freshness_filters (plugins : DiscoveredPlugins) (c : Criteria)
    (name lu : String)
    (hlu : ∀ q ∈ plugins, q.1 = name → q.2.lastUpdated = lu) :
    ((∃ s, c.lastUpdatedAfter = some s ∧ s ≠ "") →
      (lu = "N/A" ∨ parseIso lu = none) → name ∉ (filterIntegrations plugins c).1)
    ∧ ((∃ s, c.lastUpdatedBefore = some s ∧ s ≠ "") →
      (lu ≠ "N/A" ∧ parseIso lu = none) → name ∉ (filterIntegrations plugins c).1) := by
  have hmem : name ∈ (filterIntegrations plugins c).1 →
      ∃ q ∈ plugins, q.1 = name ∧ matchesCriteria c q.1 q.2 = true := by
    intro hin
    obtain ⟨q, hq, hqname⟩ := List.mem_map.1 hin
    have hf := List.mem_filter.1 hq
    exact ⟨q, hf.1, hqname, hf.2⟩
  constructor
  · rintro ⟨s, hs, hsne⟩ hun hin
    obtain ⟨q, hqp, hqname, hmatch⟩ := hmem hin
    have hqlu : q.2.lastUpdated = lu := hlu q hqp hqname
    simp only [matchesCriteria, hs, hqlu, Bool.and_eq_true] at hmatch
    have hafter := hmatch.1.2
    rcases Bool.or_eq_true_iff.1 hafter with hemp | hpass
    · exact hsne (by simpa using hemp)
    · rcases hun with hna | hparse
      · subst hna
        simp [passAfter] at hpass
      · simp [passAfter, hparse, ite_self] at hpass
  · rintro ⟨s, hs, hsne⟩ ⟨hna, hparse⟩ hin
    obtain ⟨q, hqp, hqname, hmatch⟩ := hmem hin
    have hqlu : q.2.lastUpdated = lu := hlu q hqp hqname
    simp only [matchesCriteria, hs, hqlu, Bool.and_eq_true] at hmatch
    have hbefore := hmatch.1.1.2
    rcases Bool.or_eq_true_iff.1 hbefore with hemp | hpass
    · exact hsne (by simpa using hemp)
    · simp [passBefore, hna, hparse] at hpass

/-- An enabled plugin whose computed last-updated value fails to parse as
a date. -/
def garbledPlugin : PluginSrc :=
  ⟨some ⟨some true⟩, none, 0, [], none, none, none, "garbage"⟩

/-- Witness for C3 (amended): the sentinel plugin is excluded by an
`after` filter, and the unparseable non-sentinel plugin is excluded by a
`before` filter. -/
theorem c3_unknown_freshness_filters_witness :
    ("p" ∉ (filterIntegrations [("p", naPlugin)]
        ⟨none, none, none, none, none, none, some "2024-01-01", none⟩).1)
    ∧ ("q" ∉ (filterIntegrations [("q", garbledPlugin)]
        ⟨none, none, none, none, none, some "2024-01-01", none, none⟩).1) := by
  constructor
  · exact (c3_unknown_freshness_filters [("p", naPlugin)]
      ⟨none, none, none, none, none, none, some "2024-01-01", none⟩ "p" "N/A"
      (by intro q hq _; rw [List.mem_singleton] at hq; subst hq; rfl)).1
      ⟨"2024-01-01", rfl, by decide⟩ (Or.inl rfl)
  · exact (c3_unknown_freshness_filters [("q", garbledPlugin)]
      ⟨none, none, none, none, none, some "2024-01-01", none, none⟩ "q" "garbage"
      (by intro q hq _; rw [List.mem_singleton] at hq; subst hq; rfl)).2
      ⟨"2024-01-01", rfl, by decide⟩ ⟨by decide, rfl⟩

end IntegrationFramework
